import Mathlib

/-
Verification development for the lingzhi speech-dialogue gateway
(Go sources: golang/websocket/websocket.go, golang/utils/vad/vad.go,
golang/utils/llm (ProcessLLM), golang/utils/asr (ProcessASR),
golang/model/connection.go).

The Go code is shallowly embedded: byte slices become `List Nat`, the
mutable `ConnectionState` struct is threaded explicitly, and every
external HTTP collaborator (VAD classifier, ASR recognizer, LLM stream,
TTS synthesizer) is passed in as an oracle parameter whose `none`/failure
values model timeouts, non-2xx statuses and malformed responses.
Timestamps (Go `time.Now().UnixMilli()`, `float64` millisecond fields)
are modelled as `Int`; the Go float fields only ever hold whole
milliseconds produced from integer clocks, so integer arithmetic is
exact for every property below.
-/

namespace Lingzhi

/-- model.ConnectionState (golang/model/connection.go). Field names keep
the Go casing. Only the fields read or written by the embedded
operations are carried; the opaque IoT description/states payloads and
identity fields other than the session id are omitted because no
embedded operation inspects them. -/
structure ConnectionState where
  SessionId : String
  ClientAbort : Bool
  ClientListenMode : String
  ClientAudioBuffer : List Nat
  ClientHaveVoice : Bool
  ClientHaveVoiceLastTime : Int
  ClientNoVoiceLastTime : Int
  ClientVoiceStop : Bool
  ASRAudio : List (List Nat)
  ASRServerReceive : Bool
  LLMFlag : Bool
  StartSpeakTime : Int
  TTSDuration : Int
  deriving Repr, DecidableEq

/-- State of a fresh connection as built by NewWebSocketConnection
(websocket.go:56-76): listen mode "auto", ASRServerReceive true,
everything else zero. -/
def initialConnectionState (sid : String) : ConnectionState :=
  { SessionId := sid
    ClientAbort := false
    ClientListenMode := "auto"
    ClientAudioBuffer := []
    ClientHaveVoice := false
    ClientHaveVoiceLastTime := 0
    ClientNoVoiceLastTime := 0
    ClientVoiceStop := false
    ASRAudio := []
    ASRServerReceive := true
    LLMFlag := false
    StartSpeakTime := 0
    TTSDuration := 0 }

/-- vad.VADConfig (vad.go:19-25), restricted to the fields the embedded
logic reads. -/
structure VADConfig where
  SilenceThresholdMs : Int
  FrameSize : Nat
  deriving Repr, DecidableEq

/-- vad.DefaultVADConfig (vad.go:28-36): 500 ms silence threshold,
512-sample analysis windows. -/
def DefaultVADConfig : VADConfig :=
  { SilenceThresholdMs := 500, FrameSize := 512 }

/-- Bytes per analysis window: `frameSize := v.config.FrameSize * 2`
(vad.go:168), two bytes per int16 sample. -/
def frameSizeBytes (cfg : VADConfig) : Nat := cfg.FrameSize * 2

/-- One analysis window as seen by the processVAD loop body: the
voice-activity collaborator's answer for this window (`none` models a
failed callVADService call, which vad.go:177-180 turns into
`vadResult = false`) and the `time.Now().UnixMilli()` value observed
while processing it. -/
structure VADWindow where
  voiced : Option Bool
  now : Int
  deriving Repr, DecidableEq

/-- Body of the per-window loop of processVAD (vad.go:170-197), applied
to one extracted window. Returns the updated state together with this
window's classification (the Go local `clientHaveVoice`/`vadResult`). -/
def vadStep (cfg : VADConfig) (s : ConnectionState) (w : VADWindow) :
    ConnectionState × Bool :=
  let vadResult := w.voiced.getD false
  let s1 :=
    if s.ClientHaveVoice = true ∧ vadResult = false ∧
        cfg.SilenceThresholdMs ≤ w.now - s.ClientHaveVoiceLastTime then
      { s with ClientVoiceStop := true }
    else s
  if vadResult = true then
    ({ s1 with ClientHaveVoice := true, ClientHaveVoiceLastTime := w.now },
      vadResult)
  else (s1, vadResult)

/-- The while-loop of processVAD (vad.go:170-197): while the buffer
holds a full window, strip it, classify it with the collaborator and run
`vadStep`. `fuel` bounds the number of iterations; callers pass the
buffer length, which always suffices because every iteration removes
`frameSizeBytes cfg ≥ 2` bytes. `i` indexes the per-window clock reads. -/
def processVADLoop (cfg : VADConfig) (callVAD : List Nat → Option Bool)
    (nowAt : Nat → Int) :
    Nat → Nat → ConnectionState → Bool → ConnectionState × Bool
  | 0, _, s, last => (s, last)
  | fuel + 1, i, s, last =>
    if frameSizeBytes cfg ≤ s.ClientAudioBuffer.length then
      let chunk := s.ClientAudioBuffer.take (frameSizeBytes cfg)
      let s1 := { s with
        ClientAudioBuffer := s.ClientAudioBuffer.drop (frameSizeBytes cfg) }
      let r := vadStep cfg s1 { voiced := callVAD chunk, now := nowAt i }
      processVADLoop cfg callVAD nowAt fuel (i + 1) r.1 r.2
    else (s, last)

/-- processVAD (vad.go:154-200): append the decoded bytes to the raw
audio accumulator, then drain full analysis windows. The returned Bool
is the classification of the last processed window, `false` when no
window completed (the Go local `clientHaveVoice` starts false). -/
def processVAD (cfg : VADConfig) (callVAD : List Nat → Option Bool)
    (nowAt : Nat → Int) (s : ConnectionState) (pcmData : List Nat) :
    ConnectionState × Bool :=
  let s1 := { s with ClientAudioBuffer := s.ClientAudioBuffer ++ pcmData }
  processVADLoop cfg callVAD nowAt s1.ClientAudioBuffer.length 0 s1 false

/-- IsVAD (vad.go:87-101). `decodeOpus data = none` models an Opus
decode failure, in which case vad.go:157-162 falls back to treating the
raw frame bytes as already-linear data. processVAD itself never returns
a non-nil error in the source, so IsVAD is exactly its Bool result. -/
def IsVAD (cfg : VADConfig) (callVAD : List Nat → Option Bool)
    (nowAt : Nat → Int) (decodeOpus : List Nat → Option (List Nat))
    (s : ConnectionState) (data : List Nat) : ConnectionState × Bool :=
  processVAD cfg callVAD nowAt s ((decodeOpus data).getD data)

/-- asr.ASRConfig (src/unnamed/part_002), restricted to the field the
embedded logic reads. -/
structure ASRConfig where
  MaxAudioSize : Nat
  deriving Repr, DecidableEq

/-- asr.DefaultASRConfig: MaxAudioSize is 2 MB (1024*1024*2 bytes). -/
def DefaultASRConfig : ASRConfig := { MaxAudioSize := 1024 * 1024 * 2 }

/-- Total buffered bytes of the utterance queue, as computed by the
`for _, chunk := range conn.ASRAudio { length += len(chunk) }` loop in
ProcessASR. -/
def asrAudioBytes (audio : List (List Nat)) : Nat :=
  (audio.map List.length).sum

/-- Result of one ProcessASR call: the Go `(string, error)` pair plus
the post state and whether callASRService was actually invoked. -/
structure ASROutcome where
  text : Option String
  errMsg : Option String
  post : ConnectionState
  asrInvoked : Bool
  deriving Repr, DecidableEq

/-- asr.ProcessASR (src/unnamed/part_002). `callASRService = none`
models any collaborator failure: request timeout, non-200 status,
unreadable body, malformed JSON, or a non-"success" status field — the
Go code turns each of these into a non-nil error. Note that the source
clears `conn.ASRAudio` only after a successful service call; the empty,
too-large and upstream-failure paths all leave the queue in place. -/
def ProcessASR (cfg : ASRConfig) (callASRService : Option String)
    (conn : ConnectionState) : ASROutcome :=
  if conn.ASRAudio.length = 0 then
    { text := none, errMsg := some "no audio data to recognize"
      post := conn, asrInvoked := false }
  else if cfg.MaxAudioSize < asrAudioBytes conn.ASRAudio then
    { text := none, errMsg := some "audio exceeds maximum size"
      post := conn, asrInvoked := false }
  else
    match callASRService with
    | none =>
        { text := none, errMsg := some "asr upstream failure"
          post := conn, asrInvoked := true }
    | some t =>
        { text := some t, errMsg := none
          post := { conn with ASRAudio := [] }, asrInvoked := true }

/-- Result of one handleAudioMessage call: the post state, the error
value returned to the read loop, the text handed to send2LLM (none when
nothing was routed to the dialogue pipeline), and whether the
recognition collaborator was invoked. -/
structure AudioMsgResult where
  post : ConnectionState
  err : Option String
  llmSent : Option String
  asrInvoked : Bool
  deriving Repr, DecidableEq

/-- The dispatch block of handleAudioMessage (websocket.go:366-396),
entered after the current frame has been appended to ASRAudio: if
ClientVoiceStop is set, close the audio gate, discard utterances
shorter than 3 chunks, otherwise call ProcessASR. Faithful to the
source, a ProcessASR error returns immediately (websocket.go:379-382),
skipping the state reset on websocket.go:387-394. -/
def dispatchUtterance (acfg : ASRConfig) (callASRService : Option String)
    (s : ConnectionState) : AudioMsgResult :=
  if s.ClientVoiceStop = true then
    let s1 := { s with ClientAbort := false, ASRServerReceive := false }
    if s1.ASRAudio.length < 3 then
      let s2 := { s1 with ASRServerReceive := true }
      { post := { s2 with
          ASRAudio := [], ClientAudioBuffer := []
          ClientHaveVoice := false, ClientHaveVoiceLastTime := 0
          ClientVoiceStop := false },
        err := none, llmSent := none, asrInvoked := false }
    else
      let r := ProcessASR acfg callASRService s1
      match r.text with
      | none =>
          { post := r.post, err := r.errMsg, llmSent := none,
            asrInvoked := r.asrInvoked }
      | some text =>
          let s2 := { r.post with ASRServerReceive := true }
          { post := { s2 with
              ASRAudio := [], ClientAudioBuffer := []
              ClientHaveVoice := false, ClientHaveVoiceLastTime := 0
              ClientVoiceStop := false },
            err := none, llmSent := some text, asrInvoked := r.asrInvoked }
  else { post := s, err := none, llmSent := none, asrInvoked := false }

/-- config.Config fields read by the embedded handlers
(WebSocket.CloseConnectionTimeout in seconds, WebSocket.SampleRate). -/
structure WSConfig where
  CloseConnectionTimeout : Int
  SampleRate : Nat
  deriving Repr, DecidableEq

/-- handleAudioMessage (websocket.go:327-399). `nowMs` is the
`float64(time.Now().Unix())*1000` value used by the no-voice idle
timer; `nowAt` supplies the per-window UnixMilli clock inside the VAD
loop; `decodeOpus` and `callVAD` are the Opus decoder and the
voice-activity collaborator; `callASRService` is the recognition
collaborator. -/
def handleAudioMessage (wcfg : WSConfig) (acfg : ASRConfig)
    (vcfg : VADConfig) (callVAD : List Nat → Option Bool)
    (nowAt : Nat → Int) (decodeOpus : List Nat → Option (List Nat))
    (nowMs : Int) (callASRService : Option String)
    (s : ConnectionState) (data : List Nat) : AudioMsgResult :=
  if s.ASRServerReceive = false then
    { post := s, err := none, llmSent := none, asrInvoked := false }
  else
    let p : ConnectionState × Bool :=
      if s.ClientListenMode = "auto" then
        IsVAD vcfg callVAD nowAt decodeOpus s data
      else (s, s.ClientHaveVoice)
    let s1 := p.1
    let HavaVoice := p.2
    if HavaVoice = false ∧ s1.ClientHaveVoice = false then
      let s2 :=
        if s1.ClientNoVoiceLastTime = 0 then
          { s1 with ClientNoVoiceLastTime := nowMs }
        else if 1000 * wcfg.CloseConnectionTimeout ≤
            nowMs - s1.ClientNoVoiceLastTime then
          { s1 with ClientAbort := false, ASRServerReceive := false }
        else s1
      { post := { s2 with ASRAudio := [] }, err := none, llmSent := none,
        asrInvoked := false }
    else
      let s2 := { s1 with
        ClientNoVoiceLastTime := 0
        ASRAudio := s1.ASRAudio ++ [data] }
      dispatchUtterance acfg callASRService s2

/-- model.ConnectionCommand (golang/model/connection.go), restricted to
the fields the embedded handlers read or populate. Absent JSON fields
decode to their zero values, hence the defaults. The opaque IoT
description/states payloads are carried verbatim and never inspected by
the core, so they are not modelled. -/
structure ConnectionCommand where
  type : String := ""
  state : String := ""
  mode : String := ""
  text : String := ""
  session : String := ""
  transport : String := ""
  sampleRate : Nat := 0
  deriving Repr, DecidableEq

/-- Result of one handleTextMessage call: the post state, the control
frames handed to sendResponse, and the error returned to the read loop. -/
structure TextMsgResult where
  post : ConnectionState
  sent : List ConnectionCommand
  err : Option String
  deriving Repr, DecidableEq

/-- handleTextMessage (websocket.go:405-477). The "hello" branch echoes
a hello with the configured sample rate; "iot" stores the opaque
payloads (not modelled); "abort" sets ClientAbort and immediately sends
a tts/stop control frame; "listen" updates the listen mode and the
voice flags according to its state field; an unknown type returns an
error without touching the state. -/
def handleTextMessage (wcfg : WSConfig) (s : ConnectionState)
    (msg : ConnectionCommand) : TextMsgResult :=
  if msg.type = "hello" then
    { post := s
      sent := [{ type := "hello", transport := "websocket",
                 sampleRate := wcfg.SampleRate }]
      err := none }
  else if msg.type = "iot" then
    { post := s, sent := [], err := none }
  else if msg.type = "abort" then
    { post := { s with ClientAbort := true }
      sent := [{ type := "tts", state := "stop", session := s.SessionId }]
      err := none }
  else if msg.type = "listen" then
    let s1 := if msg.mode ≠ "" then { s with ClientListenMode := msg.mode }
              else s
    if msg.state = "start" then
      { post := { s1 with ClientHaveVoice := true, ClientVoiceStop := false }
        sent := [], err := none }
    else if msg.state = "stop" then
      { post := { s1 with ClientHaveVoice := true, ClientVoiceStop := true }
        sent := [], err := none }
    else if msg.state = "detect" then
      { post := { s1 with ClientHaveVoice := false, ASRAudio := [] }
        sent := [], err := none }
    else { post := s1, sent := [], err := none }
  else { post := s, sent := [], err := some "unknown message type" }

/-- One parsed line of the LLM collaborator's streamed response
(llm.LLMResponse plus the read-loop special cases): blank lines and
JSON parse failures are skipped, `streaming` carries a text fragment,
`complete` carries the final assistant message, anything else is logged
and skipped. -/
inductive LLMLine where
  | blank
  | malformed
  | streaming (chunk : String)
  | warning (msg : String)
  | complete (message : String)
  | unknown (status : String)
  deriving Repr, DecidableEq

/-- Capacity of the tts fragment channel:
`ttsChan: make(chan string, 10)` in NewWebSocketConnection
(websocket.go:66). -/
def ttsChanCap : Nat := 10

/-- The non-blocking `select { case ttsChan <- chunk: default: ... }`
push of ProcessLLM: if the bounded channel has room the fragment is
enqueued, otherwise it is dropped and the push reports the drop (the Go
code records a warning). The Bool is true exactly when the fragment was
dropped. -/
def pushTTSChan (q : List String) (x : String) : List String × Bool :=
  if q.length < ttsChanCap then (q ++ [x], false) else (q, true)

/-- State threaded through the ProcessLLM read loop: the dialogue
history, the bounded fragment queue, and the number of drop warnings
recorded. -/
structure LLMState where
  dialogues : List (String × String)
  ttsQueue : List String
  droppedWarnings : Nat
  deriving Repr, DecidableEq

/-- The streamed-response read loop of llm.ProcessLLM: before reading
each line the loop checks connectionState.ClientAbort and returns at
once when it is set (`abortAt i` is the flag's value at the check
before line `i`, so an abort raised concurrently mid-stream is modelled
by `abortAt` turning true from some index on). A `streaming` line with
a non-empty chunk is pushed non-blockingly onto the bounded fragment
queue; `complete` appends the assistant turn to the dialogue history
and returns; every other line is skipped. Dialogue turns are
(role, content) pairs (model.Dialogue). -/
def processLLMLoop (abortAt : Nat → Bool) :
    Nat → List LLMLine → LLMState → LLMState
  | _, [], st => st
  | i, line :: rest, st =>
    if abortAt i then st
    else
      match line with
      | .streaming chunk =>
        if chunk = "" then processLLMLoop abortAt (i + 1) rest st
        else
          let p := pushTTSChan st.ttsQueue chunk
          processLLMLoop abortAt (i + 1) rest
            { st with
              ttsQueue := p.1
              droppedWarnings :=
                st.droppedWarnings + (if p.2 then 1 else 0) }
      | .complete message =>
        { st with dialogues := st.dialogues ++ [("assistant", message)] }
      | _ => processLLMLoop abortAt (i + 1) rest st

/-- llm.ProcessLLM after a successful HTTP exchange, reading the stream
from its first line. -/
def ProcessLLM (abortAt : Nat → Bool) (lines : List LLMLine)
    (st : LLMState) : LLMState :=
  processLLMLoop abortAt 0 lines st

/-- Body of the handleTTS loop (websocket.go:174-234) for one fragment
received from the tts channel. `callTTS text = none` models a synthesis
collaborator failure; success carries the audio frames and the duration
in seconds. `chanEmptyAfter` is `len(wsc.ttsChan) == 0` at the
end-of-speech check. Returns the post state, the binary audio frames
sent, and the control frames sent (the endSpeak tts/stop, whose pacing
sleep is timing-only and not modelled). When ClientAbort is set the
fragment is consumed and the body continues without synthesizing or
emitting anything (websocket.go:196-200). -/
def handleTTSStep (now : Int) (callTTS : String → Option (List (List Nat) × Int))
    (chanEmptyAfter : Bool) (s : ConnectionState) (text : String) :
    ConnectionState × List (List Nat) × List ConnectionCommand :=
  let s0 := if s.StartSpeakTime = 0 then { s with StartSpeakTime := now } else s
  if s0.ClientAbort = true then (s0, [], [])
  else
    match callTTS text with
    | none => (s0, [], [])
    | some fr =>
      let s1 := { s0 with TTSDuration := s0.TTSDuration + fr.2 * 1000 }
      if s1.LLMFlag = false ∧ chanEmptyAfter = true then
        ({ s1 with TTSDuration := 0, StartSpeakTime := 0 }, fr.1,
          [{ type := "tts", state := "stop" }])
      else (s1, fr.1, [])

/-- handleTTS draining the fragments currently queued on the tts
channel, in order, collecting every binary audio frame it emits. -/
def drainTTSQueue (now : Int)
    (callTTS : String → Option (List (List Nat) × Int)) :
    ConnectionState → List String → ConnectionState × List (List Nat)
  | s, [] => (s, [])
  | s, t :: ts =>
    let r := handleTTSStep now callTTS ts.isEmpty s t
    let rest := drainTTSQueue now callTTS r.1 ts
    (rest.1, r.2.1 ++ rest.2)

/-- Folding the processVAD loop body over a sequence of analysis
windows (the state part of repeated `vadStep`s). -/
def runVADWindows (cfg : VADConfig) (s : ConnectionState)
    (ws : List VADWindow) : ConnectionState :=
  ws.foldl (fun s w => (vadStep cfg s w).1) s

/-- Number of windows at which ClientVoiceStop transitions from false
to true along a run of the processVAD loop body. -/
def voiceStopSets (cfg : VADConfig) :
    ConnectionState → List VADWindow → Nat
  | _, [] => 0
  | s, w :: ws =>
    let s1 := (vadStep cfg s w).1
    (if s.ClientVoiceStop = false ∧ s1.ClientVoiceStop = true then 1 else 0)
      + voiceStopSets cfg s1 ws

/-- The silence-end condition of vad.go:184-189 for one window: voice
was previously detected, this window is unvoiced, and the elapsed time
since the last voiced window reaches the silence threshold. -/
def stopTrigger (cfg : VADConfig) (s : ConnectionState) (w : VADWindow) :
    Prop :=
  s.ClientHaveVoice = true ∧ w.voiced.getD false = false ∧
    cfg.SilenceThresholdMs ≤ w.now - s.ClientHaveVoiceLastTime

/-- Somewhere along the run, a window satisfies the silence-end
condition in the state reached at that point. -/
def triggersAlong (cfg : VADConfig) :
    ConnectionState → List VADWindow → Prop
  | _, [] => False
  | s, w :: ws =>
    stopTrigger cfg s w ∨ triggersAlong cfg ((vadStep cfg s w).1) ws

theorem vadStep_voiced (cfg : VADConfig) (s : ConnectionState)
    (w : VADWindow) (h : w.voiced = some true) :
    vadStep cfg s w =
      ({ s with ClientHaveVoice := true, ClientHaveVoiceLastTime := w.now },
        true) := by
  simp [vadStep, h]

theorem vadStep_unvoiced (cfg : VADConfig) (s : ConnectionState)
    (w : VADWindow) (h : w.voiced.getD false = false) :
    vadStep cfg s w =
      ((if s.ClientHaveVoice = true ∧
            cfg.SilenceThresholdMs ≤ w.now - s.ClientHaveVoiceLastTime then
          { s with ClientVoiceStop := true }
        else s), false) := by
  simp [vadStep, h]

theorem vadStep_voiceStop_mono (cfg : VADConfig) (s : ConnectionState)
    (w : VADWindow) (h : s.ClientVoiceStop = true) :
    ((vadStep cfg s w).1).ClientVoiceStop = true := by
  unfold vadStep
  dsimp only
  split <;> split <;> simp_all

theorem vadStep_voiceStop_cases (cfg : VADConfig) (s : ConnectionState)
    (w : VADWindow) :
    ((vadStep cfg s w).1).ClientVoiceStop = s.ClientVoiceStop ∨
      ((vadStep cfg s w).1).ClientVoiceStop = true := by
  unfold vadStep
  dsimp only
  split <;> split <;> simp_all

theorem voiceStopSets_of_true (cfg : VADConfig) (s : ConnectionState)
    (ws : List VADWindow) (h : s.ClientVoiceStop = true) :
    voiceStopSets cfg s ws = 0 := by
  induction ws generalizing s with
  | nil => rfl
  | cons w ws ih =>
    have h1 := vadStep_voiceStop_mono cfg s w h
    simp [voiceStopSets, h, h1, ih _ h1]

theorem voiceStopSets_eq_one (cfg : VADConfig) (s : ConnectionState)
    (ws : List VADWindow) (h0 : s.ClientVoiceStop = false)
    (h : triggersAlong cfg s ws) : voiceStopSets cfg s ws = 1 := by
  induction ws generalizing s with
  | nil => exact absurd h (by simp [triggersAlong])
  | cons w ws ih =>
    by_cases hb : ((vadStep cfg s w).1).ClientVoiceStop = true
    · simp [voiceStopSets, h0, hb, voiceStopSets_of_true cfg _ ws hb]
    · have hb' : ((vadStep cfg s w).1).ClientVoiceStop = false := by
        rcases vadStep_voiceStop_cases cfg s w with hc | hc
        · rw [hc]; exact h0
        · exact absurd hc hb
      rcases h with htr | htl
      · exfalso
        apply hb
        obtain ⟨h1, h2, h3⟩ := htr
        rw [vadStep_unvoiced cfg s w h2]
        simp [h1, h3]
      · simp [voiceStopSets, hb, ih _ hb' htl]

theorem runVADWindows_voiced (cfg : VADConfig) (vs : List VADWindow)
    (v : VADWindow) (s : ConnectionState)
    (hvs : ∀ w ∈ vs, w.voiced = some true) (hv : v.voiced = some true) :
    runVADWindows cfg s (vs ++ [v]) =
      { s with ClientHaveVoice := true, ClientHaveVoiceLastTime := v.now } := by
  induction vs generalizing s with
  | nil => simp [runVADWindows, vadStep_voiced cfg s v hv]
  | cons w ws ih =>
    have hw : w.voiced = some true := hvs w (by simp)
    have hws : ∀ x ∈ ws, x.voiced = some true := by
      intro x hx; exact hvs x (by simp [hx])
    simp only [List.cons_append, runVADWindows, List.foldl_cons]
    rw [show (vadStep cfg s w).1 =
        { s with ClientHaveVoice := true, ClientHaveVoiceLastTime := w.now }
      from by rw [vadStep_voiced cfg s w hw]]
    exact ih _ hws

theorem runVADWindows_unvoiced_keeps (cfg : VADConfig)
    (us : List VADWindow) (s : ConnectionState)
    (hus : ∀ w ∈ us, w.voiced.getD false = false) :
    (runVADWindows cfg s us).ClientHaveVoice = s.ClientHaveVoice ∧
      (runVADWindows cfg s us).ClientHaveVoiceLastTime =
        s.ClientHaveVoiceLastTime := by
  induction us generalizing s with
  | nil => exact ⟨rfl, rfl⟩
  | cons w ws ih =>
    have hw : w.voiced.getD false = false := hus w (by simp)
    have hws : ∀ x ∈ ws, x.voiced.getD false = false := by
      intro x hx; exact hus x (by simp [hx])
    simp only [runVADWindows, List.foldl_cons]
    have hstep :
        ((vadStep cfg s w).1).ClientHaveVoice = s.ClientHaveVoice ∧
          ((vadStep cfg s w).1).ClientHaveVoiceLastTime =
            s.ClientHaveVoiceLastTime := by
      rw [vadStep_unvoiced cfg s w hw]
      split <;> simp
    obtain ⟨e1, e2⟩ := ih ((vadStep cfg s w).1) hws
    rw [runVADWindows] at e1 e2
    exact ⟨e1.trans hstep.1, e2.trans hstep.2⟩

theorem triggersAlong_of_middle (cfg : VADConfig) (xs : List VADWindow)
    (w : VADWindow) (ys : List VADWindow) (s : ConnectionState)
    (h : stopTrigger cfg (runVADWindows cfg s xs) w) :
    triggersAlong cfg s (xs ++ w :: ys) := by
  induction xs generalizing s with
  | nil =>
    simp only [List.nil_append, triggersAlong]
    exact Or.inl (by simpa [runVADWindows] using h)
  | cons x xs ih =>
    simp only [List.cons_append, triggersAlong]
    refine Or.inr (ih _ ?_)
    simpa [runVADWindows, List.foldl_cons] using h

/-- C3: for every sequence of analysis windows consisting of a voiced
run followed by unvoiced windows, as soon as some unvoiced window comes
at least the configured silence threshold after the last voiced window,
the segmenter's loop body sets ClientVoiceStop exactly once along the
whole run — the flag transitions false-to-true at exactly one window
and is never set again afterwards (`us2` is arbitrary, so in particular
it is not set again during the remaining silence or a later voiced
run; only dispatch resets it). -/
theorem voice_stop_set_exactly_once (cfg : VADConfig)
    (s0 : ConnectionState) (vs : List VADWindow) (v : VADWindow)
    (us1 : List VADWindow) (u : VADWindow) (us2 : List VADWindow)
    (h0 : s0.ClientVoiceStop = false)
    (hvs : ∀ w ∈ vs, w.voiced = some true) (hv : v.voiced = some true)
    (hus1 : ∀ w ∈ us1, w.voiced.getD false = false)
    (hu : u.voiced.getD false = false)
    (hgap : cfg.SilenceThresholdMs ≤ u.now - v.now) :
    voiceStopSets cfg s0 (((vs ++ [v]) ++ us1) ++ u :: us2) = 1 := by
  apply voiceStopSets_eq_one cfg s0 _ h0
  apply triggersAlong_of_middle
  have happ : runVADWindows cfg s0 ((vs ++ [v]) ++ us1) =
      runVADWindows cfg (runVADWindows cfg s0 (vs ++ [v])) us1 := by
    simp [runVADWindows, List.foldl_append]
  have hA := runVADWindows_voiced cfg vs v s0 hvs hv
  have hB := runVADWindows_unvoiced_keeps cfg us1
    (runVADWindows cfg s0 (vs ++ [v])) hus1
  refine ⟨?_, hu, ?_⟩
  · rw [happ, hB.1, hA]
  · rw [happ, hB.2, hA]
    exact hgap

theorem voice_stop_set_exactly_once_witness :
    voiceStopSets DefaultVADConfig (initialConnectionState "w3")
      ((([] ++ [⟨some true, 0⟩]) ++ []) ++ ⟨some false, 600⟩ :: []) = 1 := by
  exact voice_stop_set_exactly_once DefaultVADConfig
    (initialConnectionState "w3") [] ⟨some true, 0⟩ [] ⟨some false, 600⟩ []
    rfl (by simp) rfl (by simp) rfl (by decide)

/-- C4: a completed utterance of fewer than 3 accumulated chunks is
silently discarded by the dispatch block of handleAudioMessage
(websocket.go:372-373): the recognition collaborator is never invoked,
the utterance queue (and raw accumulator and voice flags) are cleared,
and ASRServerReceive is re-enabled. -/
theorem short_utterance_discarded (acfg : ASRConfig)
    (callASRService : Option String) (s : ConnectionState)
    (h1 : s.ClientVoiceStop = true) (h2 : s.ASRAudio.length < 3) :
    dispatchUtterance acfg callASRService s =
      { post := { s with
          ClientAbort := false, ASRServerReceive := true
          ASRAudio := [], ClientAudioBuffer := []
          ClientHaveVoice := false, ClientHaveVoiceLastTime := 0
          ClientVoiceStop := false }
        err := none, llmSent := none, asrInvoked := false } := by
  simp [dispatchUtterance, h1, h2]

theorem short_utterance_discarded_witness :
    dispatchUtterance DefaultASRConfig (some "text")
      { initialConnectionState "w4" with
        ClientVoiceStop := true, ClientHaveVoice := true
        ASRAudio := [[1], [2]] } =
      { post := { initialConnectionState "w4" with
          ClientVoiceStop := false, ClientHaveVoice := false }
        err := none, llmSent := none, asrInvoked := false } := by
  rw [short_utterance_discarded DefaultASRConfig (some "text") _ rfl
    (by decide)]
  rfl

/-- C6: an audio frame arriving while ASRServerReceive is false is
dropped by handleAudioMessage (websocket.go:328-331): the handler
returns with the connection state untouched (so in particular the raw
accumulator, the utterance queue and the voice flags are unchanged),
no error, no text routed to the dialogue pipeline (so the dialogue
history cannot grow), and no recognition call. -/
theorem audio_dropped_when_not_accepting (wcfg : WSConfig)
    (acfg : ASRConfig) (vcfg : VADConfig)
    (callVAD : List Nat → Option Bool) (nowAt : Nat → Int)
    (decodeOpus : List Nat → Option (List Nat)) (nowMs : Int)
    (callASRService : Option String) (s : ConnectionState)
    (data : List Nat) (h : s.ASRServerReceive = false) :
    handleAudioMessage wcfg acfg vcfg callVAD nowAt decodeOpus nowMs
        callASRService s data =
      { post := s, err := none, llmSent := none, asrInvoked := false } := by
  simp [handleAudioMessage, h]

theorem audio_dropped_when_not_accepting_witness :
    handleAudioMessage ⟨60, 16000⟩ DefaultASRConfig DefaultVADConfig
        (fun _ => some true) (fun _ => 0) (fun _ => none) 0 (some "t")
        { initialConnectionState "w6" with ASRServerReceive := false }
        [1, 2, 3] =
      { post := { initialConnectionState "w6" with ASRServerReceive := false }
        err := none, llmSent := none, asrInvoked := false } := by
  exact audio_dropped_when_not_accepting ⟨60, 16000⟩ DefaultASRConfig
    DefaultVADConfig (fun _ => some true) (fun _ => 0) (fun _ => none) 0
    (some "t") _ [1, 2, 3] rfl

/-- C10: calling ProcessASR with an empty utterance queue returns an
error at once (src/unnamed/part_002, the `len(conn.ASRAudio) == 0`
check): the recognition collaborator is not invoked and the connection
state is returned unchanged. -/
theorem processasr_empty_queue_error (cfg : ASRConfig)
    (callASRService : Option String) (s : ConnectionState)
    (h : s.ASRAudio = []) :
    ProcessASR cfg callASRService s =
      { text := none, errMsg := some "no audio data to recognize"
        post := s, asrInvoked := false } := by
  simp [ProcessASR, h]

theorem processasr_empty_queue_error_witness :
    ProcessASR DefaultASRConfig (some "t") (initialConnectionState "w10") =
      { text := none, errMsg := some "no audio data to recognize"
        post := initialConnectionState "w10", asrInvoked := false } := by
  exact processasr_empty_queue_error DefaultASRConfig (some "t") _ rfl

/-- Dispatch state with a completed three-chunk utterance, used to
exercise the recognition-failure path. -/
def c1State : ConnectionState :=
  { initialConnectionState "c1" with
    ClientVoiceStop := true
    ClientHaveVoice := true
    ASRAudio := [[1], [2], [3]] }

/-- C1 (code bug): when the recognition collaborator fails, the
dispatch path does return the upstream error and routes no text to the
dialogue pipeline — but, contrary to the claim, the `return err` on
websocket.go:381 bypasses the cleanup block on websocket.go:387-395, so
the utterance queue is NOT cleared and ASRServerReceive stays false:
every later audio frame is dropped by the websocket.go:328 gate and the
session can never accept speech again. -/
theorem asr_failure_leaves_session_stuck :
    (dispatchUtterance DefaultASRConfig none c1State).err =
        some "asr upstream failure" ∧
      (dispatchUtterance DefaultASRConfig none c1State).llmSent = none ∧
      (dispatchUtterance DefaultASRConfig none c1State).asrInvoked = true ∧
      (dispatchUtterance DefaultASRConfig none c1State).post.ASRAudio =
        [[1], [2], [3]] ∧
      (dispatchUtterance DefaultASRConfig none c1State).post.ASRServerReceive
        = false := by
  decide

/-- Dispatch state whose three buffered chunks total 2097155 bytes,
just over the 2 MB DefaultASRConfig.MaxAudioSize. -/
def c2State : ConnectionState :=
  { initialConnectionState "c2" with
    ClientVoiceStop := true
    ClientHaveVoice := true
    ASRAudio := [List.replicate 1048577 0, List.replicate 1048577 0, [0]] }

/-- Helper: the too-large path of the dispatch block. ProcessASR
returns the size error before calling the collaborator, and
handleAudioMessage's early `return err` then skips queue clearing and
re-enabling of ASRServerReceive. -/
theorem dispatchUtterance_too_large (acfg : ASRConfig)
    (callASRService : Option String) (s : ConnectionState)
    (h1 : s.ClientVoiceStop = true) (h2 : ¬s.ASRAudio.length < 3)
    (h3 : acfg.MaxAudioSize < asrAudioBytes s.ASRAudio) :
    dispatchUtterance acfg callASRService s =
      { post := { s with ClientAbort := false, ASRServerReceive := false }
        err := some "audio exceeds maximum size"
        llmSent := none, asrInvoked := false } := by
  have h0 : ¬s.ASRAudio.length = 0 := by omega
  simp [dispatchUtterance, ProcessASR, h1, h2, h3, h0]

/-- C2 (code bug): a buffered utterance over the 2 MB maximum makes the
dispatch path return the too-large error without invoking the
recognition collaborator — that much matches the claim — but, contrary
to the claim, the early `return err` (websocket.go:381) again skips the
cleanup: the oversized queue is NOT cleared and ASRServerReceive stays
false. -/
theorem too_large_skips_asr_but_no_cleanup :
    (dispatchUtterance DefaultASRConfig (some "ok") c2State).asrInvoked
        = false ∧
      (dispatchUtterance DefaultASRConfig (some "ok") c2State).err =
        some "audio exceeds maximum size" ∧
      (dispatchUtterance DefaultASRConfig (some "ok") c2State).llmSent
        = none ∧
      (dispatchUtterance DefaultASRConfig (some "ok") c2State).post.ASRAudio
        = c2State.ASRAudio ∧
      (dispatchUtterance DefaultASRConfig (some "ok")
        c2State).post.ASRServerReceive = false := by
  have h1 : c2State.ClientVoiceStop = true := rfl
  have hA : c2State.ASRAudio =
      [List.replicate 1048577 0, List.replicate 1048577 0, [0]] := rfl
  have h2 : ¬c2State.ASRAudio.length < 3 := by
    rw [hA]
    simp only [List.length_cons, List.length_nil]
    omega
  have h3 : DefaultASRConfig.MaxAudioSize < asrAudioBytes c2State.ASRAudio := by
    rw [hA, asrAudioBytes]
    simp only [List.map_cons, List.map_nil, List.length_replicate,
      List.sum_cons, List.sum_nil, List.length_cons, List.length_nil]
    norm_num [DefaultASRConfig]
  rw [dispatchUtterance_too_large DefaultASRConfig (some "ok") c2State h1 h2 h3]
  refine ⟨rfl, rfl, rfl, rfl, rfl⟩

/-- Dispatch state for the flag-reset check on the recognition-failure
path. -/
def c5State : ConnectionState :=
  { initialConnectionState "c5" with
    ClientVoiceStop := true
    ClientHaveVoice := true
    ASRAudio := [[4], [5], [6]] }

/-- C5 (code bug): the first half of the claimed invariant holds in the
source (ClientVoiceStop is only set while ClientHaveVoice holds, and
the successful and too-short dispatch paths reset both flags together,
websocket.go:392-394), but the second half fails on the
recognition-error dispatch: the early `return err` of websocket.go:381
skips the reset, leaving ClientVoiceStop and ClientHaveVoice both
true. -/
theorem dispatch_error_flags_not_reset :
    (dispatchUtterance DefaultASRConfig none c5State).post.ClientVoiceStop
        = true ∧
      (dispatchUtterance DefaultASRConfig none c5State).post.ClientHaveVoice
        = true ∧
      (dispatchUtterance DefaultASRConfig none c5State).asrInvoked = true := by
  decide

theorem handleTextMessage_abort (wcfg : WSConfig) (s : ConnectionState)
    (msg : ConnectionCommand) (h : msg.type = "abort") :
    handleTextMessage wcfg s msg =
      { post := { s with ClientAbort := true }
        sent := [{ type := "tts", state := "stop", session := s.SessionId }]
        err := none } := by
  simp [handleTextMessage, h]

theorem processLLMLoop_no_append (abortAt : Nat → Bool)
    (lines : List LLMLine) (i : Nat) (st : LLMState)
    (h : ∀ j m, lines.get? j = some (LLMLine.complete m) →
      abortAt (i + j) = true) :
    (processLLMLoop abortAt i lines st).dialogues = st.dialogues := by
  induction lines generalizing i st with
  | nil => rfl
  | cons line rest ih =>
    have hshift : ∀ j m, rest.get? j = some (LLMLine.complete m) →
        abortAt (i + 1 + j) = true := by
      intro j m hj
      have := h (j + 1) m (by simpa using hj)
      simpa [Nat.add_assoc, Nat.add_comm 1 j] using this
    by_cases ha : abortAt i = true
    · simp [processLLMLoop, ha]
    · have ha' : ¬(abortAt i = true) := ha
      cases line with
      | streaming chunk =>
        by_cases hc : chunk = ""
        · simpa [processLLMLoop, ha', hc] using ih (i + 1) st hshift
        · simpa [processLLMLoop, ha', hc] using ih (i + 1) _ hshift
      | complete message =>
        exact absurd (by simpa using h 0 message rfl) ha'
      | blank => simpa [processLLMLoop, ha'] using ih (i + 1) st hshift
      | malformed => simpa [processLLMLoop, ha'] using ih (i + 1) st hshift
      | warning m => simpa [processLLMLoop, ha'] using ih (i + 1) st hshift
      | unknown m => simpa [processLLMLoop, ha'] using ih (i + 1) st hshift

theorem handleTTSStep_abort (now : Int)
    (callTTS : String → Option (List (List Nat) × Int))
    (chanEmptyAfter : Bool) (s : ConnectionState) (text : String)
    (h : s.ClientAbort = true) :
    (handleTTSStep now callTTS chanEmptyAfter s text).1.ClientAbort = true ∧
      (handleTTSStep now callTTS chanEmptyAfter s text).2.1 = [] := by
  unfold handleTTSStep
  split <;> simp [h]

theorem drainTTSQueue_abort_no_frames (now : Int)
    (callTTS : String → Option (List (List Nat) × Int))
    (s : ConnectionState) (texts : List String)
    (h : s.ClientAbort = true) :
    (drainTTSQueue now callTTS s texts).2 = [] := by
  induction texts generalizing s with
  | nil => rfl
  | cons t ts ih =>
    have hs := handleTTSStep_abort now callTTS ts.isEmpty s t h
    simp [drainTTSQueue, hs.2, ih _ hs.1]

/-- C7: when the device sends an abort command mid-reply, (1) the
command handler sets ClientAbort and immediately sends the tts stop
control frame (websocket.go:434-453); (2) the generation stage, which
checks the flag before reading each streamed line, never appends an
assistant turn to the dialogue history once the flag is set at every
index where a terminal `complete` line could be processed; and (3) the
synthesis stage drains every queued fragment while emitting no audio
frame (websocket.go:196-200). -/
theorem abort_stops_pipeline :
    (∀ (wcfg : WSConfig) (s : ConnectionState) (msg : ConnectionCommand),
      msg.type = "abort" →
        (handleTextMessage wcfg s msg).post.ClientAbort = true ∧
          (handleTextMessage wcfg s msg).sent =
            [{ type := "tts", state := "stop", session := s.SessionId }]) ∧
      (∀ (abortAt : Nat → Bool) (lines : List LLMLine) (st : LLMState),
        (∀ j m, lines.get? j = some (LLMLine.complete m) →
          abortAt j = true) →
        (ProcessLLM abortAt lines st).dialogues = st.dialogues) ∧
      (∀ (now : Int) (callTTS : String → Option (List (List Nat) × Int))
          (s : ConnectionState) (texts : List String),
        s.ClientAbort = true →
        (drainTTSQueue now callTTS s texts).2 = []) := by
  refine ⟨?_, ?_, ?_⟩
  · intro wcfg s msg h
    rw [handleTextMessage_abort wcfg s msg h]
    exact ⟨rfl, rfl⟩
  · intro abortAt lines st h
    exact processLLMLoop_no_append abortAt lines 0 st
      (by intro j m hj; simpa using h j m hj)
  · intro now callTTS s texts h
    exact drainTTSQueue_abort_no_frames now callTTS s texts h

theorem abort_stops_pipeline_witness :
    (handleTextMessage ⟨60, 16000⟩ (initialConnectionState "w7")
        { type := "abort" }).post.ClientAbort = true ∧
      (ProcessLLM (fun _ => true)
          [LLMLine.streaming "a", LLMLine.complete "hi"]
          ⟨[("user", "q")], [], 0⟩).dialogues = [("user", "q")] ∧
      (drainTTSQueue 5 (fun _ => some ([[1, 2]], 2))
          { initialConnectionState "w7" with ClientAbort := true }
          ["a", "b"]).2 = [] := by
  refine ⟨(abort_stops_pipeline.1 ⟨60, 16000⟩ _ _ rfl).1,
    abort_stops_pipeline.2.1 (fun _ => true)
      [LLMLine.streaming "a", LLMLine.complete "hi"] ⟨[("user", "q")], [], 0⟩
      ?_,
    abort_stops_pipeline.2.2 5 (fun _ => some ([[1, 2]], 2)) _ ["a", "b"] rfl⟩
  intro j m hj
  rfl

/-- C8: pushing a streamed fragment onto the bounded fragment queue is
the total function `pushTTSChan` (it always returns at once — the Go
select with a default branch never blocks): the channel capacity is 10
(websocket.go:66); a push below capacity appends the fragment; on a
full queue the fragment is dropped with the drop reported (ProcessLLM
records a warning); the queue never grows past capacity; and after a
dropped fragment the generation loop simply continues with the rest of
the stream, the queue unchanged and the warning counted. -/
theorem fragment_push_nonblocking :
    ttsChanCap = 10 ∧
      (∀ (q : List String) (x : String), q.length < ttsChanCap →
        pushTTSChan q x = (q ++ [x], false)) ∧
      (∀ (q : List String) (x : String), ttsChanCap ≤ q.length →
        pushTTSChan q x = (q, true)) ∧
      (∀ (q : List String) (x : String),
        (pushTTSChan q x).1.length ≤ max q.length ttsChanCap) ∧
      (∀ (abortAt : Nat → Bool) (i : Nat) (rest : List LLMLine)
          (st : LLMState) (chunk : String),
        abortAt i = false → ¬chunk = "" → ttsChanCap ≤ st.ttsQueue.length →
        processLLMLoop abortAt i (LLMLine.streaming chunk :: rest) st =
          processLLMLoop abortAt (i + 1) rest
            { st with droppedWarnings := st.droppedWarnings + 1 }) := by
  refine ⟨rfl, ?_, ?_, ?_, ?_⟩
  · intro q x h
    simp [pushTTSChan, h]
  · intro q x h
    simp [pushTTSChan, Nat.not_lt.2 h]
  · intro q x
    by_cases h : q.length < ttsChanCap
    · simp only [pushTTSChan, if_pos h, List.length_append,
        List.length_cons, List.length_nil]
      omega
    · simp only [pushTTSChan, if_neg h]
      omega
  · intro abortAt i rest st chunk ha hc hq
    simp [processLLMLoop, ha, hc, pushTTSChan, Nat.not_lt.2 hq]

theorem fragment_push_nonblocking_witness :
    pushTTSChan ["a"] "b" = (["a", "b"], false) ∧
      pushTTSChan ["0", "1", "2", "3", "4", "5", "6", "7", "8", "9"] "x" =
        (["0", "1", "2", "3", "4", "5", "6", "7", "8", "9"], true) ∧
      processLLMLoop (fun _ => false) 0 [LLMLine.streaming "c"]
          ⟨[], ["0", "1", "2", "3", "4", "5", "6", "7", "8", "9"], 0⟩ =
        ⟨[], ["0", "1", "2", "3", "4", "5", "6", "7", "8", "9"], 1⟩ := by
  refine ⟨fragment_push_nonblocking.2.1 ["a"] "b" (by decide),
    fragment_push_nonblocking.2.2.1 _ "x" (by decide), ?_⟩
  rw [fragment_push_nonblocking.2.2.2.2 (fun _ => false) 0 []
    ⟨[], ["0", "1", "2", "3", "4", "5", "6", "7", "8", "9"], 0⟩ "c" rfl
    (by decide) (by decide)]
  rfl

theorem vadStep_snd (cfg : VADConfig) (s : ConnectionState)
    (w : VADWindow) : (vadStep cfg s w).2 = w.voiced.getD false := by
  unfold vadStep
  dsimp only
  split <;> simp_all

theorem processVADLoop_short (cfg : VADConfig)
    (callVAD : List Nat → Option Bool) (nowAt : Nat → Int)
    (fuel i : Nat) (s : ConnectionState) (last : Bool)
    (h : s.ClientAudioBuffer.length < frameSizeBytes cfg) :
    processVADLoop cfg callVAD nowAt fuel i s last = (s, last) := by
  cases fuel with
  | zero => rfl
  | succ n => simp [processVADLoop, Nat.not_le.2 h]

theorem processVAD_short (cfg : VADConfig)
    (callVAD : List Nat → Option Bool) (nowAt : Nat → Int)
    (s : ConnectionState) (pcmData : List Nat)
    (h : s.ClientAudioBuffer.length + pcmData.length < frameSizeBytes cfg) :
    processVAD cfg callVAD nowAt s pcmData =
      ({ s with ClientAudioBuffer := s.ClientAudioBuffer ++ pcmData },
        false) := by
  unfold processVAD
  apply processVADLoop_short
  simpa using h

theorem processVADLoop_allfail (cfg : VADConfig)
    (callVAD : List Nat → Option Bool) (nowAt : Nat → Int)
    (hfail : ∀ c, callVAD c = none) :
    ∀ (fuel i : Nat) (s : ConnectionState),
      (processVADLoop cfg callVAD nowAt fuel i s false).2 = false := by
  intro fuel
  induction fuel with
  | zero => intro i s; rfl
  | succ n ih =>
    intro i s
    by_cases h : frameSizeBytes cfg ≤ s.ClientAudioBuffer.length
    · have hsnd : (vadStep cfg
          { s with ClientAudioBuffer :=
              s.ClientAudioBuffer.drop (frameSizeBytes cfg) }
          { voiced := callVAD (s.ClientAudioBuffer.take (frameSizeBytes cfg))
            now := nowAt i }).2 = false := by
        rw [vadStep_snd, hfail]
        rfl
      simp only [processVADLoop, if_pos h]
      rw [hsnd]
      exact ih (i + 1) _
    · simp [processVADLoop, h]

theorem processVAD_allfail (cfg : VADConfig)
    (callVAD : List Nat → Option Bool) (nowAt : Nat → Int)
    (s : ConnectionState) (pcmData : List Nat)
    (hfail : ∀ c, callVAD c = none) :
    (processVAD cfg callVAD nowAt s pcmData).2 = false := by
  unfold processVAD
  exact processVADLoop_allfail cfg callVAD nowAt hfail _ _ _

/-- Voice-activity oracle for the C9 counterexample: the collaborator
call fails (matching a timeout or malformed response) on any window
whose first byte is 0 and reports voiced otherwise. -/
def exCallVAD (c : List Nat) : Option Bool :=
  if c.headD 0 = 0 then none else some true

/-- A single inbound frame whose decoded bytes fill exactly two
analysis windows: the first window is all zero bytes, the second all
ones. -/
def exFrame : List Nat := List.replicate 1024 0 ++ List.replicate 1024 1

/-- C9 counterexample: the claim says IsVAD returns false WHENEVER the
voice-activity collaborator call fails, but processVAD returns the
classification of the LAST extracted window (vad.go:181 overwrites
`clientHaveVoice` on every loop iteration). Here the frame yields two
windows; the collaborator call for the first window (exactly
`List.replicate 1024 0`) fails, the call for the second reports voiced,
and IsVAD returns true despite the failed call. -/
theorem vadStep_buffer (cfg : VADConfig) (s : ConnectionState)
    (w : VADWindow) :
    ((vadStep cfg s w).1).ClientAudioBuffer = s.ClientAudioBuffer := by
  unfold vadStep
  dsimp only
  split <;> split <;> simp_all

theorem processVADLoop_step (cfg : VADConfig)
    (callVAD : List Nat → Option Bool) (nowAt : Nat → Int)
    (fuel i : Nat) (s : ConnectionState) (last : Bool)
    (h : frameSizeBytes cfg ≤ s.ClientAudioBuffer.length) :
    processVADLoop cfg callVAD nowAt (fuel + 1) i s last =
      processVADLoop cfg callVAD nowAt fuel (i + 1)
        (vadStep cfg
          { s with ClientAudioBuffer :=
              s.ClientAudioBuffer.drop (frameSizeBytes cfg) }
          { voiced := callVAD (s.ClientAudioBuffer.take (frameSizeBytes cfg))
            now := nowAt i }).1
        (vadStep cfg
          { s with ClientAudioBuffer :=
              s.ClientAudioBuffer.drop (frameSizeBytes cfg) }
          { voiced := callVAD (s.ClientAudioBuffer.take (frameSizeBytes cfg))
            now := nowAt i }).2 := by
  simp [processVADLoop, h]

/-- Starting from an empty raw accumulator, a frame decoding to exactly
two full analysis windows makes processVAD return the collaborator's
classification of the SECOND window, whatever the first window's call
returned — the loop overwrites its result variable on every iteration
(vad.go:181). -/
theorem processVAD_two_windows (cfg : VADConfig)
    (callVAD : List Nat → Option Bool) (nowAt : Nat → Int)
    (s : ConnectionState) (c0 c1 : List Nat)
    (h0 : s.ClientAudioBuffer = [])
    (hl0 : c0.length = frameSizeBytes cfg)
    (hl1 : c1.length = frameSizeBytes cfg)
    (hpos : 0 < frameSizeBytes cfg) :
    (processVAD cfg callVAD nowAt s (c0 ++ c1)).2 =
      (callVAD c1).getD false := by
  unfold processVAD
  rw [h0]
  show (processVADLoop cfg callVAD nowAt ((c0 ++ c1).length) 0
      { s with ClientAudioBuffer := c0 ++ c1 } false).2 =
    (callVAD c1).getD false
  obtain ⟨m, hm⟩ : ∃ m, (c0 ++ c1).length = m + 1 + 1 :=
    ⟨(c0 ++ c1).length - 2, by
      simp only [List.length_append, hl0, hl1]
      omega⟩
  rw [hm]
  rw [processVADLoop_step cfg callVAD nowAt (m + 1) 0
    { s with ClientAudioBuffer := c0 ++ c1 } false
    (by
      show frameSizeBytes cfg ≤ (c0 ++ c1).length
      simp only [List.length_append, hl0, hl1]
      omega)]
  have htk : ({ s with ClientAudioBuffer := c0 ++ c1 } :
      ConnectionState).ClientAudioBuffer.take (frameSizeBytes cfg) = c0 :=
    List.take_left' hl0
  have hdp : ({ s with ClientAudioBuffer := c0 ++ c1 } :
      ConnectionState).ClientAudioBuffer.drop (frameSizeBytes cfg) = c1 :=
    List.drop_left' hl0
  rw [htk, hdp]
  have hb1 : ∀ w : VADWindow,
      ((vadStep cfg { s with ClientAudioBuffer := c1 } w).1).ClientAudioBuffer
        = c1 :=
    fun w => (vadStep_buffer cfg _ w).trans rfl
  rw [processVADLoop_step cfg callVAD nowAt m 1 _ _
    (by
      rw [hb1]
      omega)]
  rw [hb1, List.take_of_length_le (le_of_eq hl1),
    List.drop_of_length_le (le_of_eq hl1)]
  rw [processVADLoop_short cfg callVAD nowAt m 2 _ _
    (by
      rw [vadStep_buffer]
      show ([] : List Nat).length < frameSizeBytes cfg
      simpa using hpos)]
  rw [vadStep_snd]

/-- C9 counterexample: the claim says IsVAD returns false WHENEVER the
voice-activity collaborator call fails, but processVAD returns the
classification of the LAST extracted window (vad.go:181 overwrites
`clientHaveVoice` on every loop iteration). Here the inbound frame
yields two analysis windows; the collaborator call for the first
window (exactly `List.replicate 1024 0`) fails, the call for the
second window reports voiced, and the IsVAD result is true despite the
failed call made during the invocation. -/
theorem isvad_failed_call_still_true :
    exCallVAD (List.replicate 1024 0) = none ∧
      (processVAD DefaultVADConfig exCallVAD (fun _ => 0)
          (initialConnectionState "c9") exFrame).2 = true := by
  refine ⟨rfl, ?_⟩
  have h := processVAD_two_windows DefaultVADConfig exCallVAD (fun _ => 0)
    (initialConnectionState "c9") (List.replicate 1024 0)
    (List.replicate 1024 1) rfl
    (by rw [List.length_replicate]; rfl)
    (by rw [List.length_replicate]; rfl)
    (by norm_num [frameSizeBytes, DefaultVADConfig])
  rw [show exFrame = List.replicate 1024 0 ++ List.replicate 1024 1 from rfl]
  rw [h]
  rfl

/-- C9 (amended): IsVAD returns false (1) whenever the decoded bytes
leave the accumulated buffer short of one full 1024-byte analysis
window, and (2) whenever every voice-activity collaborator call made
during the invocation fails (a failed call classifies its window as
unvoiced; the returned value is the last window's classification);
consequently (3) a frame arriving while ClientHaveVoice is still false
and before any window completes takes the no-voice branch of
handleAudioMessage: the utterance queue ends up empty (the frame is
never appended), nothing is routed to the dialogue pipeline and no
recognition call is made. -/
theorem isvad_false_conditions :
    (∀ (cfg : VADConfig) (callVAD : List Nat → Option Bool)
        (nowAt : Nat → Int) (s : ConnectionState) (pcmData : List Nat),
      s.ClientAudioBuffer.length + pcmData.length < frameSizeBytes cfg →
      (processVAD cfg callVAD nowAt s pcmData).2 = false) ∧
      (∀ (cfg : VADConfig) (callVAD : List Nat → Option Bool)
          (nowAt : Nat → Int) (s : ConnectionState) (pcmData : List Nat),
        (∀ c, callVAD c = none) →
        (processVAD cfg callVAD nowAt s pcmData).2 = false) ∧
      (∀ (wcfg : WSConfig) (acfg : ASRConfig) (vcfg : VADConfig)
          (callVAD : List Nat → Option Bool) (nowAt : Nat → Int)
          (decodeOpus : List Nat → Option (List Nat)) (nowMs : Int)
          (callASRService : Option String) (s : ConnectionState)
          (data : List Nat),
        s.ClientListenMode = "auto" → s.ClientHaveVoice = false →
        s.ASRServerReceive = true →
        s.ClientAudioBuffer.length + ((decodeOpus data).getD data).length
            < frameSizeBytes vcfg →
        (handleAudioMessage wcfg acfg vcfg callVAD nowAt decodeOpus nowMs
            callASRService s data).post.ASRAudio = [] ∧
          (handleAudioMessage wcfg acfg vcfg callVAD nowAt decodeOpus nowMs
            callASRService s data).llmSent = none ∧
          (handleAudioMessage wcfg acfg vcfg callVAD nowAt decodeOpus nowMs
            callASRService s data).asrInvoked = false) := by
  refine ⟨?_, ?_, ?_⟩
  · intro cfg callVAD nowAt s pcmData h
    rw [processVAD_short cfg callVAD nowAt s pcmData h]
  · intro cfg callVAD nowAt s pcmData h
    exact processVAD_allfail cfg callVAD nowAt s pcmData h
  · intro wcfg acfg vcfg callVAD nowAt decodeOpus nowMs callASRService s
      data hmode hhv hrecv hshort
    have hvad : IsVAD vcfg callVAD nowAt decodeOpus s data =
        ({ s with ClientAudioBuffer :=
            s.ClientAudioBuffer ++ (decodeOpus data).getD data }, false) := by
      unfold IsVAD
      exact processVAD_short vcfg callVAD nowAt s _ hshort
    simp only [handleAudioMessage, hrecv, hmode, hvad]
    simp [hhv]

theorem isvad_false_conditions_witness :
    (processVAD DefaultVADConfig (fun _ => some true) (fun _ => 0)
        (initialConnectionState "w9") [0, 1, 2]).2 = false ∧
      (processVAD DefaultVADConfig (fun _ => none) (fun _ => 0)
          (initialConnectionState "w9") [0, 1, 2]).2 = false ∧
      (handleAudioMessage ⟨60, 16000⟩ DefaultASRConfig DefaultVADConfig
          (fun _ => some true) (fun _ => 0) (fun _ => none) 7 (some "t")
          (initialConnectionState "w9") [0, 1, 2]).post.ASRAudio = [] := by
  refine ⟨isvad_false_conditions.1 DefaultVADConfig _ _ _ _ (by decide),
    isvad_false_conditions.2.1 DefaultVADConfig _ _ _ _ (fun c => rfl),
    (isvad_false_conditions.2.2 ⟨60, 16000⟩ DefaultASRConfig
      DefaultVADConfig (fun _ => some true) (fun _ => 0) (fun _ => none) 7
      (some "t") (initialConnectionState "w9") [0, 1, 2] rfl rfl rfl
      (by decide)).1⟩

end Lingzhi
